import Mathlib

/-!
Verification of the copilot-multi coordination layer (broker, session store,
scheduler) against its natural-language specification.

The Python sources are shallowly embedded: pure fragments become Lean
functions, stateful fragments become explicit state passing or labelled
step relations, library calls (json decoding, the external subprocess)
become function parameters of the embedding.
-/

namespace CopilotMulti

/-- Model of a Python JSON value (the session documents and broker
protocol messages are `json` values). Objects are association lists;
real Python dicts never hold duplicate keys, lookups take the first hit. -/
inductive Json where
  | null
  | bool (b : Bool)
  | num (n : Int)
  | str (s : String)
  | arr (xs : List Json)
  | obj (fields : List (String × Json))
deriving Repr, Inhabited

/-- Python truthiness (`bool(x)`): `None`, `False`, `0`, `""`, `[]`, `\x7b\x7d`
are falsy, everything else truthy. -/
def Json.truthy : Json → Bool
  | .null => false
  | .bool b => b
  | .num n => n != 0
  | .str s => !s.isEmpty
  | .arr xs => !xs.isEmpty
  | .obj fs => !fs.isEmpty

/-- `d.get(key)` on a dict; `None` (modelled as `Option.none`) on a
missing key or a non-dict receiver. -/
def Json.get? : Json → String → Option Json
  | .obj fs, k => fs.lookup k
  | _, _ => none

/-- `x or y` in Python: `x` when truthy, else `y`. -/
def pyOr (x y : Json) : Json := if x.truthy then x else y

/-- `isinstance(x, dict)`. -/
def Json.isObj : Json → Bool
  | .obj _ => true
  | _ => false

/-- Helper for the substring test: does `needle` occur in `hay`? -/
def listContainsSub (needle : List Char) : List Char → Bool
  | [] => needle.isEmpty
  | a :: as => List.isPrefixOf needle (a :: as) || listContainsSub needle as

/-- Substring test (`needle in hay` on Python strings). -/
def strContainsSub (hay needle : String) : Bool :=
  listContainsSub needle.toList hay.toList

/-- `s.lower()` (character-wise, as Python does for ASCII text). -/
def strToLower (s : String) : String :=
  String.mk (s.toList.map Char.toLower)

/-- `s.strip()`: remove leading and trailing whitespace. -/
def strStrip (s : String) : String :=
  String.mk
    (((s.toList.dropWhile Char.isWhitespace).reverse.dropWhile
      Char.isWhitespace).reverse)

/-- `s.replace(":", "")` as used for the quarantine timestamp. -/
def removeColons (s : String) : String :=
  String.mk (s.toList.filter (fun c => c != ':'))

/-- Digit run to number, `none` on an empty or non-digit run. -/
def digitsToNat? (ds : List Char) : Option Nat :=
  if ds.isEmpty || !ds.all Char.isDigit then none
  else some (ds.foldl (fun acc c => 10 * acc + (c.toNat - 48)) 0)

/-- Python `int(s)` on a string: optional sign and a digit run, with
surrounding whitespace allowed; anything else raises (`none`). -/
def pyIntOfString (s : String) : Option Int :=
  match (strStrip s).toList with
  | '-' :: ds => (digitsToNat? ds).map (fun n => -(n : Int))
  | '+' :: ds => (digitsToNat? ds).map Int.ofNat
  | ds => (digitsToNat? ds).map Int.ofNat

/-- `int(x)` on a JSON value: ints pass through, bools are 0/1, numeric
strings are parsed; everything else raises (`none`). -/
def pyInt? : Json → Option Int
  | .num n => some n
  | .bool b => some (if b then 1 else 0)
  | .str s => pyIntOfString s
  | _ => none

/-! ## Broker: `_run_copilot_prompt` (broker.py lines 38-104)

The external tool is a parameter `tool : Bool → Int × String` mapping the
continuation flag of an invocation to its exit status and combined
stdout+stderr text (within one `_run_copilot_prompt` call the two possible
invocations use distinct flags, so a flag-indexed oracle is faithful).
The session marker file is modelled as a boolean; the observable side
effects are recorded as an event trace. -/

/-- Observable side effects of one `_run_copilot_prompt` call, in order:
subprocess launches (with their continuation flag), removal of the session
marker file (`unlink`), creation of the session marker file (`write_text`). -/
inductive BrokerEvent where
  | invoke (useContinue : Bool)
  | clearMarker
  | setMarker
deriving Repr, DecidableEq

/-- Result of one `_run_copilot_prompt` call: what the function returns
(`returncode`, `combined`), the marker file state afterwards, and the
event trace. -/
structure PromptOutcome where
  returncode : Int
  combined : String
  markerAfter : Bool
  events : List BrokerEvent
deriving Repr

/-- broker.py lines 70-72: the retry heuristic. `msg = combined.lower()`;
retry when `"session" in msg and "continue" in msg and ("no" in msg or
"not" in msg)`. -/
def indicatesNoSession (combined : String) : Bool :=
  let msg := strToLower combined
  strContainsSub msg "session" && strContainsSub msg "continue" &&
    (strContainsSub msg "no" || strContainsSub msg "not")

/-- broker.py `_run_copilot_prompt` body (run inside the global lock):
run the tool with `--continue` iff the marker file exists; on a failed
continuation whose output matches the no-session heuristic, unlink the
marker and retry once without `--continue`; on a final success with no
marker present, create the marker. -/
def runCopilotPrompt (markerBefore : Bool) (tool : Bool → Int × String) :
    PromptOutcome :=
  let useContinue := markerBefore
  let first := tool useContinue
  let retry := useContinue && first.1 != 0 && indicatesNoSession first.2
  let afterRetry : Int × String × Bool × List BrokerEvent :=
    if retry then
      let second := tool false
      (second.1, second.2, false, [.invoke useContinue, .clearMarker, .invoke false])
    else
      (first.1, first.2, markerBefore, [.invoke useContinue])
  let setM := afterRetry.1 == 0 && !afterRetry.2.2.1
  { returncode := afterRetry.1
    combined := afterRetry.2.1
    markerAfter := if setM then true else afterRetry.2.2.1
    events := afterRetry.2.2.2 ++ if setM then [.setMarker] else [] }

/-! ## Broker: `_UnixJSONLineHandler.handle` (broker.py lines 112-161)

`json.loads` is a parameter `decode`; the serialized prompt path
(`_run_copilot_prompt`) is a parameter `runPrompt` returning exit code and
combined output. The handler reads one line, answers exactly one JSON
object (or nothing when the connection closed without sending a line),
then returns, closing the connection. -/

/-- Static identity of a broker instance, used by the `info` reply. -/
structure BrokerIdentity where
  repoRoot : String
  copilotConfigDir : String

/-- `\x7b"ok": False, "error": e\x7d` -/
def errorReply (e : String) : Json :=
  .obj [("ok", .bool false), ("error", .str e)]

/-- Python `x == "lit"` for an optional JSON value: true only for the
exact string. -/
def isStrEq (v : Option Json) (s : String) : Bool :=
  match v with
  | some (.str t) => t == s
  | _ => false

/-- broker.py `handle`: `none` models returning without writing a reply
(empty read: peer closed without sending a line); otherwise exactly one
reply object is written and the handler returns. -/
def handle (decode : String → Option Json) (runPrompt : String → Int × String)
    (cfg : BrokerIdentity) (raw : String) : Option Json :=
  if raw = "" then none
  else
    match decode raw with
    | none => some (errorReply "invalid_json")
    | some req =>
      if !req.isObj then some (errorReply "invalid_request")
      else
        let kind := req.get? "kind"
        if isStrEq kind "ping" then
          some (.obj [("ok", .bool true), ("kind", .str "pong")])
        else if isStrEq kind "info" then
          some (.obj [("ok", .bool true), ("kind", .str "info"),
                      ("repoRoot", .str cfg.repoRoot),
                      ("copilotConfigDir", .str cfg.copilotConfigDir)])
        else if !isStrEq kind "prompt" then
          some (errorReply "unknown_kind")
        else
          match req.get? "prompt" with
          | some (.str p) =>
            if strStrip p = "" then some (errorReply "empty_prompt")
            else
              let r := runPrompt p
              some (.obj [("ok", .bool true), ("exitCode", .num r.1),
                          ("output", .str r.2)])
          | _ => some (errorReply "empty_prompt")

/-! ## State store: `LockedSession` (session_store.py lines 18-71)

`write_json` serializes with sorted keys and atomically replaces the
backing file; `read_json` returns `\x7b\x7d` on a missing or blank file and
quarantines an unparsable file under a timestamped `.corrupt-` sibling
name. `json.loads` is a `loads` parameter; indentation whitespace of
`json.dumps` is elided (it affects no equality below). -/

mutual

/-- `json.dumps(x, sort_keys=True)` (indentation elided): object keys are
emitted in sorted order. -/
def Json.dumps : Json → String
  | .null => "null"
  | .bool b => if b then "true" else "false"
  | .num n => toString n
  | .str s => "\"" ++ s ++ "\""
  | .arr xs => "[" ++ String.intercalate ", " (dumpsList xs) ++ "]"
  | .obj fs =>
    let rendered := (dumpsFields fs).mergeSort (fun a b => a.1 ≤ b.1)
    "\x7b" ++ String.intercalate ", "
      (rendered.map (fun kv => "\"" ++ kv.1 ++ "\": " ++ kv.2)) ++ "\x7d"

def dumpsList : List Json → List String
  | [] => []
  | x :: xs => Json.dumps x :: dumpsList xs

def dumpsFields : List (String × Json) → List (String × String)
  | [] => []
  | (k, v) :: fs => (k, Json.dumps v) :: dumpsFields fs

end

/-- The slice of the filesystem owned by one `LockedSession`: the backing
file's content (`none` when absent) and the quarantine files created so
far (name, content). -/
structure StoreFs where
  name : String
  data : Option String
  quarantined : List (String × String)
deriving Repr

/-- session_store.py `utc_now_iso()` with `:` removed, as used for the
quarantine suffix; time is passed in as `now`. -/
def corruptName (name now : String) : String :=
  name ++ ".corrupt-" ++ removeColons now

/-- session_store.py `read_json`: missing file → `\x7b\x7d`; blank file →
`\x7b\x7d`; undecodable file → rename it to the `.corrupt-` sibling and
return `\x7b\x7d`; otherwise the decoded document. Never raises. -/
def readJson (loads : String → Option Json) (now : String) (fs : StoreFs) :
    Json × StoreFs :=
  match fs.data with
  | none => (.obj [], fs)
  | some raw =>
    let stripped := strStrip raw
    if stripped = "" then (.obj [], fs)
    else
      match loads stripped with
      | some doc => (doc, fs)
      | none =>
        (.obj [], { fs with
          data := none
          quarantined := fs.quarantined ++ [(corruptName fs.name now, raw)] })

/-- session_store.py `write_json`: serialize with sorted keys, write to a
temporary sibling, fsync, atomically rename over the target (the
temporary file never becomes the visible document, so only the final
content is modelled). -/
def writeJson (fs : StoreFs) (d : Json) : StoreFs :=
  { fs with data := some (d.dumps ++ "\n") }

/-! ## Constants (constants.py) and session-state normalization
(cli.py lines 580-646)

`utc_now_iso()` is passed in as a `now : String` parameter (always a
non-empty ISO timestamp in the running system); the repo root is a
string parameter. -/

/-- constants.py `PERSONAS`: the fixed closed persona set. -/
def PERSONAS : List (String × String) :=
  [("pm", "Project Manager"),
   ("impl", "Implementation Engineer"),
   ("review", "Code Review Engineer"),
   ("docs", "Technical Writer / Documentor")]

/-- constants.py `ALLOWED_STATUSES`. -/
def ALLOWED_STATUSES : List String := ["idle", "working", "waiting", "done", "blocked"]

/-- cli.py `CURRENT_SESSION_VERSION = 3`. -/
def CURRENT_SESSION_VERSION : Int := 3

/-- constants.py `TMUX_SESSION_NAME`. -/
def SESSION_NAME : String := "copilot-multi"

/-- cli.py lines 627-629: an input `status` value survives only when it is
a member of `ALLOWED_STATUSES` (Python `in` on a string list is false for
every non-string), otherwise it normalizes to `"idle"`. -/
def normStatus (v : Option Json) : String :=
  match v with
  | some (.str s) => if ALLOWED_STATUSES.contains s then s else "idle"
  | _ => "idle"

/-- cli.py lines 631-633: `inputReady` survives only when it is a bool. -/
def normInputReady (v : Option Json) : Json :=
  match v with
  | some (.bool b) => .bool b
  | _ => .bool false

/-- cli.py lines 622-642: the normalized record for one persona, built
from the (possibly non-dict, possibly partial) `existing` entry. -/
def normalizePersona (now display : String) (existing : Json) : Json :=
  let ex := if existing.isObj then existing else .obj []
  .obj [("displayName", pyOr ((ex.get? "displayName").getD .null) (.str display)),
        ("status", .str (normStatus (ex.get? "status"))),
        ("updatedAt", pyOr ((ex.get? "updatedAt").getD .null) (.str now)),
        ("message", pyOr ((ex.get? "message").getD .null) (.str "")),
        ("inputReady", normInputReady (ex.get? "inputReady")),
        ("paneId", pyOr ((ex.get? "paneId").getD .null) (.str ""))]

/-- cli.py `_init_session_state`: the fresh default document. -/
def initSessionState (repoRoot now : String) : Json :=
  .obj [("version", .num CURRENT_SESSION_VERSION),
        ("sessionName", .str SESSION_NAME),
        ("repoRoot", .str repoRoot),
        ("createdAt", .str now),
        ("personas", .obj (PERSONAS.map (fun kd =>
          (kd.1, .obj [("displayName", .str kd.2),
                       ("status", .str "idle"),
                       ("updatedAt", .str now),
                       ("message", .str ""),
                       ("inputReady", .bool false),
                       ("paneId", .str "")]))))]

/-- cli.py `_normalize_session_state`: a non-dict or empty input becomes
the fresh default document; otherwise every top-level field is rebuilt,
every persona key of `PERSONAS` is (re)created, and the version is bumped
to `CURRENT_SESSION_VERSION`. The `int(version)`/`except` dance
(lines 604-608) computes a value that line 645 then overwrites. -/
def normalizeSessionState (repoRoot now : String) (data : Json) : Json :=
  match data with
  | .obj fs =>
    if fs.isEmpty then initSessionState repoRoot now
    else
      let personas :=
        match (Json.obj fs).get? "personas" with
        | some p => if p.isObj then p else .obj []
        | none => .obj []
      .obj [("version", .num CURRENT_SESSION_VERSION),
            ("sessionName", .str SESSION_NAME),
            ("repoRoot", .str repoRoot),
            ("createdAt", pyOr (((Json.obj fs).get? "createdAt").getD .null) (.str now)),
            ("personas", .obj (PERSONAS.map (fun kd =>
              (kd.1, normalizePersona now kd.2 ((personas.get? kd.1).getD .null)))))]
  | _ => initSessionState repoRoot now

/-- Python dict item assignment `d[k] = v` (existing key keeps its slot,
a new key is appended). -/
def setField : List (String × Json) → String → Json → List (String × Json)
  | [], k, v => [(k, v)]
  | (k', v') :: fs, k, v =>
    if k' = k then (k, v) :: fs else (k', v') :: setField fs k v

/-- `d[k] = v` on a JSON object. -/
def Json.set (j : Json) (k : String) (v : Json) : Json :=
  match j with
  | .obj fs => .obj (setField fs k v)
  | _ => j

/-- cli.py `cmd_set_status` lines 850-859 (after its persona/status
validation): normalize the stored document, overwrite the persona's
`status` and `updatedAt`, optionally the `message`, and write the result.
cli.py `_set_persona_status` (lines 528-537, used by `ask`) is the
`message := none` case. -/
def cmdSetStatusDoc (repoRoot now persona status : String)
    (message : Option String) (d : Json) : Json :=
  let data := normalizeSessionState repoRoot now d
  let ps := (data.get? "personas").getD (.obj [])
  let record := (ps.get? persona).getD (.obj [])
  let record1 := (record.set "status" (.str status)).set "updatedAt" (.str now)
  let record2 :=
    match message with
    | some m => record1.set "message" (.str m)
    | none => record1
  data.set "personas" (ps.set persona record2)

/-! ## Response artifacts

pane_repl.py/cli.py read the per-persona artifact pair
(`responses/<persona>.last.txt`, `responses/<persona>.last.id`); the
writer that fills them on a successful broker invocation is part of this
repository but not among the provided sources, so it is modelled from the
spec. -/

/-- A persona's response artifact: the last response body and the opaque
response id compared only for change. -/
structure ResponseArtifact where
  body : String
  responseId : String
deriving Repr, DecidableEq

/-- Modelled from the spec: the response-artifact writer (the spec's
"Broker ... writes response artifact + bumps response id"; the writer
component itself is not among the provided source files, only its readers
`_response_id`/`_read_last_response`/`_wait_for_response_update` are).
Per the spec, writers overwrite in place: the previous artifact does not
contribute to the new one. -/
def writeResponseArtifact (_old : Option ResponseArtifact)
    (body newId : String) : ResponseArtifact :=
  { body := body, responseId := newId }

/-- One prompt invocation outcome `(exitCode, body, freshId)` applied to a
persona's artifact: per the spec the artifact is written exactly on
success (exit status zero) and untouched otherwise. -/
def applyPromptResult (st : Option ResponseArtifact)
    (r : Int × String × String) : Option ResponseArtifact :=
  if r.1 = 0 then some (writeResponseArtifact st r.2.1 r.2.2) else st

/-- Folding a sequence of invocation outcomes over a persona's artifact. -/
def runPromptResults (st : Option ResponseArtifact)
    (rs : List (Int × String × String)) : Option ResponseArtifact :=
  rs.foldl applyPromptResult st

/-! ## Broker concurrency (broker.py lines 38-40, 107-110, 196-211)

`run_server` creates one `threading.Lock` and hands it to every handler
thread; `_run_copilot_prompt` executes its whole body — both possible
subprocess launches — inside `with lock:`. Each concurrent `prompt`
request is a thread: it is `idle` before reaching `_run_copilot_prompt`,
`waiting` at `with lock:`, `running` (the critical section, where every
external-assistant launch happens) once the lock is acquired, and `done`
after release. -/

inductive HandlerPC where
  | idle
  | waiting
  | running
  | done
deriving Repr, DecidableEq

/-- The shared state of one broker instance: each handler thread's
location and the lock's holder (`none` = free). -/
structure BrokerLockState where
  pc : Nat → HandlerPC
  holder : Option Nat

/-- All handler threads start outside the critical section, lock free. -/
def brokerLockInit : BrokerLockState :=
  { pc := fun _ => .idle, holder := none }

/-- Interleaving semantics of the handler threads around `copilot_lock`:
a thread may reach `with lock:`, acquire the lock only when it is free,
and release it when leaving the critical section. -/
inductive BrokerStep : BrokerLockState → BrokerLockState → Prop where
  | request (s : BrokerLockState) (t : Nat) :
      s.pc t = .idle →
      BrokerStep s { pc := Function.update s.pc t .waiting, holder := s.holder }
  | acquire (s : BrokerLockState) (t : Nat) :
      s.pc t = .waiting → s.holder = none →
      BrokerStep s { pc := Function.update s.pc t .running, holder := some t }
  | release (s : BrokerLockState) (t : Nat) :
      s.pc t = .running →
      BrokerStep s { pc := Function.update s.pc t .done, holder := none }

/-- States reachable by any interleaving of any number of handler threads. -/
def BrokerLockReachable (s : BrokerLockState) : Prop :=
  Relation.ReflTransGen BrokerStep brokerLockInit s

/-- An external-assistant subprocess invocation is in flight for thread
`t` exactly while `t` is inside the critical section (broker.py launches
the subprocess only there, lines 40-104). -/
def invocationInFlight (s : BrokerLockState) (t : Nat) : Prop :=
  s.pc t = .running

/-! ## Scheduler dispatch loop (pane_repl.py lines 270-411)

The loop is embedded two ways sharing `hasBlockingDependency`:
an event-indexed small step `schedStepFn` (each dispatch / artifact-change
observation / deadline sweep is one event, matching the sequential order
of the Python loop), and the literal per-iteration body `loopBody`.
All requests of a batch share one deadline (line 286), so a deadline
sweep drops either every pending request or none. -/

/-- pane_repl.py `_AgentRequest` (the shared `deadline` is modelled by
the `dropTimedOut` event / `timedOut` flag). -/
structure AgentRequest where
  idx : Nat
  persona : String
  segment : String
  deps : List String
deriving Repr, DecidableEq

/-- The loop state: not-yet-dispatched requests and the personas with an
in-flight peer dispatch. -/
structure SchedState where
  pending : List AgentRequest
  active : List String
deriving Repr, DecidableEq

/-- pane_repl.py `_has_blocking_dependency` (lines 307-318): an earlier
not-yet-dispatched request with the same target or a target in `deps`
blocks, and so does any dependency persona currently active. -/
def hasBlockingDependency (pending : List AgentRequest) (active : List String)
    (req : AgentRequest) : Bool :=
  pending.any (fun o =>
    decide (o.idx < req.idx) && (o.persona == req.persona || req.deps.contains o.persona))
  || req.deps.any (fun d => active.contains d)

/-- One observable scheduler event: the deadline sweep firing, the
observation that an active persona's response id / mtime changed
(lines 384-398), or one dispatch of a request (`ok` = the value
`_dispatch_to_pane` returned; a dispatch to the origin persona or a
failed dispatch never enters `active_personas`). -/
inductive SchedEvent where
  | dropTimedOut
  | observe (p : String)
  | dispatch (r : AgentRequest) (ok : Bool)
deriving Repr, DecidableEq

/-- Guarded small step: `none` when the event is not enabled in `s`
(matching the `continue` guards of lines 401-404 and the membership
checks of the observation sweep). -/
def schedStepFn (origin : String) (s : SchedState) :
    SchedEvent → Option SchedState
  | .dropTimedOut => some { pending := [], active := s.active }
  | .observe p =>
    if s.active.contains p then
      some { pending := s.pending, active := s.active.erase p }
    else none
  | .dispatch r ok =>
    if s.pending.contains r && !s.active.contains r.persona &&
        !hasBlockingDependency s.pending s.active r then
      let pending1 := s.pending.erase r
      if ok && r.persona != origin then
        some { pending := pending1, active := s.active ++ [r.persona] }
      else
        some { pending := pending1, active := s.active }
    else none

/-- Run a sequence of scheduler events; fails when any event is not
enabled at its state. -/
def runTrace (origin : String) : SchedState → List SchedEvent → Option SchedState
  | s, [] => some s
  | s, e :: es =>
    match schedStepFn origin s e with
    | some s1 => runTrace origin s1 es
    | none => none

/-- pane_repl.py lines 400-408: the dispatch sweep of one loop iteration,
walking the snapshot `list(pending)` while updating the live state. -/
def dispatchSweep (origin : String) (peerOk : AgentRequest → Bool) :
    List AgentRequest → SchedState → SchedState
  | [], st => st
  | r :: rest, st =>
    if st.active.contains r.persona then dispatchSweep origin peerOk rest st
    else if hasBlockingDependency st.pending st.active r then
      dispatchSweep origin peerOk rest st
    else
      let st1 : SchedState := { pending := st.pending.erase r, active := st.active }
      let st2 :=
        if peerOk r && r.persona != origin then
          { st1 with active := st1.active ++ [r.persona] }
        else st1
      dispatchSweep origin peerOk rest st2

/-- One iteration of `while pending or active_personas` (lines 377-411):
drop all pending requests when past the shared deadline, drop each active
persona whose artifact is observed changed, then run the dispatch sweep.
`changed` abstracts the response-id/mtime comparison of lines 385-395. -/
def loopBody (origin : String) (changed : String → Bool) (timedOut : Bool)
    (peerOk : AgentRequest → Bool) (s : SchedState) : SchedState :=
  let pending1 := if timedOut then [] else s.pending
  let active1 := s.active.filter (fun p => !changed p)
  dispatchSweep origin peerOk pending1 { pending := pending1, active := active1 }

/-- The `while` condition of line 377: `pending or active_personas`. -/
def loopContinues (s : SchedState) : Bool :=
  !s.pending.isEmpty || !s.active.isEmpty

/-! ## Concrete instances used by the witnesses -/

/-- A concrete external tool: the continuation attempt fails with the
no-session message, the fresh attempt succeeds. -/
def c2Tool : Bool → Int × String :=
  fun b => if b then (1, "Error: No session found to continue.") else (0, "hello")

/-- A concrete decoder standing in for `json.loads` on a handful of
request lines. -/
def cDecode : String → Option Json :=
  fun raw =>
    if raw = "bad json" then none
    else if raw = "[1]" then some (.arr [.num 1])
    else if raw = "resume" then some (.obj [("kind", .str "resume")])
    else if raw = "blank prompt" then
      some (.obj [("kind", .str "prompt"), ("prompt", .str "   ")])
    else if raw = "failing prompt" then
      some (.obj [("kind", .str "prompt"), ("prompt", .str "hi there")])
    else none

/-- A concrete serialized prompt runner that fails with exit code 2. -/
def cRunPrompt : String → Int × String :=
  fun p => (2, "boom: " ++ p)

/-- A concrete broker identity. -/
def cIdentity : BrokerIdentity :=
  { repoRoot := "/repo", copilotConfigDir := "/repo/.copilot-multi/copilot" }

/-- A reachable broker-lock state with thread 0 at `with lock:`. -/
def brokerLockMid : BrokerLockState :=
  { pc := Function.update (fun _ => HandlerPC.idle) 0 .waiting, holder := none }

/-- A reachable broker-lock state with thread 0 inside the critical
section. -/
def brokerLockDemo : BrokerLockState :=
  { pc := Function.update brokerLockMid.pc 0 .running, holder := some 0 }

/-- A concrete directed segment addressed to `pm`, no dependencies. -/
def exReqA : AgentRequest :=
  { idx := 0, persona := "pm", segment := "draft the plan", deps := [] }

/-- A concrete directed segment addressed to `docs` that embeds `pm`
context (its dependency set contains `pm`). -/
def exReqB : AgentRequest :=
  { idx := 1, persona := "docs", segment := "write the docs", deps := ["pm"] }

/-! ## Theorems -/

/-- C2: when a prompt invocation requested continuation (marker set) and
the invocation fails with a non-zero exit whose combined output matches
the no-session text heuristic, the broker clears the marker and retries
exactly once without continuation (trace `invoke true, clearMarker,
invoke false`), returning the retry's result; in every other case —
continuation not requested, a zero exit, or any other failure text —
exactly one invocation happens and no retry occurs. -/
theorem c2_continuation_retry (markerBefore : Bool) (tool : Bool → Int × String) :
    ((markerBefore = true ∧ (tool true).1 ≠ 0 ∧ indicatesNoSession (tool true).2 = true) →
      (runCopilotPrompt markerBefore tool).events =
        .invoke true :: .clearMarker :: .invoke false ::
          (if (tool false).1 = 0 then [BrokerEvent.setMarker] else []) ∧
      (runCopilotPrompt markerBefore tool).returncode = (tool false).1 ∧
      (runCopilotPrompt markerBefore tool).combined = (tool false).2 ∧
      (runCopilotPrompt markerBefore tool).markerAfter = ((tool false).1 == 0)) ∧
    (¬(markerBefore = true ∧ (tool markerBefore).1 ≠ 0 ∧
        indicatesNoSession (tool markerBefore).2 = true) →
      (runCopilotPrompt markerBefore tool).events =
        .invoke markerBefore ::
          (if (tool markerBefore).1 = 0 ∧ markerBefore = false
           then [BrokerEvent.setMarker] else [])) := by
  constructor
  · rintro ⟨hm, hrc, hind⟩
    subst hm
    have h1 : ((tool true).1 != 0) = true := by simpa using hrc
    simp only [runCopilotPrompt, h1, hind, Bool.and_true, Bool.true_and, if_true]
    by_cases h2 : (tool false).1 = 0 <;> simp [h2]
  · intro h
    have hretry : (markerBefore && (tool markerBefore).1 != 0 &&
        indicatesNoSession (tool markerBefore).2) = false := by
      by_cases hm : markerBefore = true
      · subst hm
        by_cases hrc : (tool true).1 = 0
        · simp [hrc]
        · by_cases hind : indicatesNoSession (tool true).2 = true
          · exact absurd ⟨rfl, hrc, hind⟩ h
          · simp [hind]
      · simp at hm
        simp [hm]
    simp only [runCopilotPrompt, hretry, if_false, Bool.false_eq_true]
    by_cases h2 : (tool markerBefore).1 = 0 <;>
      by_cases h3 : markerBefore = false <;>
      simp [h2, h3]

/-- C2 witness: with the marker set and a tool whose continuation attempt
answers "No session found to continue", the broker performs exactly the
retry trace and returns the successful retry result. -/
theorem c2_continuation_retry_witness :
    (runCopilotPrompt true c2Tool).events =
      [.invoke true, .clearMarker, .invoke false, .setMarker] ∧
    (runCopilotPrompt true c2Tool).returncode = 0 := by
  have h := (c2_continuation_retry true c2Tool).1 ⟨rfl, by decide, by decide⟩
  exact ⟨by simpa using h.1, by simpa using h.2.1⟩

/-- A value equal (as Python `==`) to one string literal is unequal to a
different literal. -/
theorem isStrEq_unique {v : Option Json} {s t : String}
    (h : isStrEq v s = true) (hne : t ≠ s) : isStrEq v t = false := by
  unfold isStrEq at h ⊢
  match v with
  | none => simp at h
  | some (.str u) =>
    simp only [beq_iff_eq] at h
    subst h
    simp only [beq_eq_false_iff_ne]
    exact fun hc => hne hc.symm
  | some .null | some (.bool _) | some (.num _) | some (.arr _) | some (.obj _) =>
    simp at h

/-- C7: the broker answers every received request line with exactly one
structured reply before closing: undecodable JSON with `invalid_json`, a
decoded non-object with `invalid_request`, an object whose kind is none
of ping/info/prompt with `unknown_kind`, and a prompt request whose
prompt field is absent, not a string, or whitespace-only with
`empty_prompt`; a reply is always written. -/
theorem c7_malformed_requests (decode : String → Option Json)
    (runPrompt : String → Int × String) (cfg : BrokerIdentity) (raw : String)
    (hraw : raw ≠ "") :
    (decode raw = none →
      handle decode runPrompt cfg raw = some (errorReply "invalid_json")) ∧
    (∀ req, decode raw = some req → req.isObj = false →
      handle decode runPrompt cfg raw = some (errorReply "invalid_request")) ∧
    (∀ req, decode raw = some req → req.isObj = true →
      isStrEq (req.get? "kind") "ping" = false →
      isStrEq (req.get? "kind") "info" = false →
      isStrEq (req.get? "kind") "prompt" = false →
      handle decode runPrompt cfg raw = some (errorReply "unknown_kind")) ∧
    (∀ req, decode raw = some req → req.isObj = true →
      isStrEq (req.get? "kind") "prompt" = true →
      (∀ p, req.get? "prompt" = some (.str p) → strStrip p = "") →
      handle decode runPrompt cfg raw = some (errorReply "empty_prompt")) ∧
    (handle decode runPrompt cfg raw).isSome = true := by
  refine ⟨?_, ?_, ?_, ?_, ?_⟩
  · intro hdec
    simp [handle, hraw, hdec]
  · intro req hdec hobj
    simp [handle, hraw, hdec, hobj]
  · intro req hdec hobj hping hinfo hprompt
    simp [handle, hraw, hdec, hobj, hping, hinfo, hprompt]
  · intro req hdec hobj hprompt hp
    have hping : isStrEq (req.get? "kind") "ping" = false :=
      isStrEq_unique hprompt (by decide)
    have hinfo : isStrEq (req.get? "kind") "info" = false :=
      isStrEq_unique hprompt (by decide)
    simp only [handle, hraw, if_neg hraw, hdec, hobj, Bool.not_true,
      Bool.false_eq_true, if_false, hping, hinfo, hprompt, Bool.not_false, if_true]
    match hfield : req.get? "prompt" with
    | none => simp
    | some .null | some (.bool _) | some (.num _) | some (.arr _) | some (.obj _) => simp
    | some (.str p) =>
      have := hp p hfield
      simp [this]
  · unfold handle
    rw [if_neg hraw]
    match decode raw with
    | none => rfl
    | some req =>
      cases req with
      | obj fs =>
        simp only [Json.isObj, Bool.not_true, Bool.false_eq_true, if_false]
        by_cases hping : isStrEq ((Json.obj fs).get? "kind") "ping" = true
        · simp [hping]
        · simp only [Bool.not_eq_true] at hping
          by_cases hinfo : isStrEq ((Json.obj fs).get? "kind") "info" = true
          · simp [hping, hinfo]
          · simp only [Bool.not_eq_true] at hinfo
            by_cases hprompt : isStrEq ((Json.obj fs).get? "kind") "prompt" = true
            · simp only [hping, hinfo, hprompt, Bool.not_false, Bool.not_true,
                Bool.false_eq_true, if_false, if_true]
              match (Json.obj fs).get? "prompt" with
              | none => rfl
              | some .null | some (.bool _) | some (.num _)
              | some (.arr _) | some (.obj _) => rfl
              | some (.str p) =>
                by_cases hps : strStrip p = "" <;> simp [hps]
            · simp [hping, hinfo, hprompt]
      | null | bool _ | num _ | str _ | arr _ => simp [Json.isObj]

/-- C7 witness: each defect class answered with its structured error on
concrete request lines. -/
theorem c7_malformed_requests_witness :
    handle cDecode cRunPrompt cIdentity "bad json" = some (errorReply "invalid_json") ∧
    handle cDecode cRunPrompt cIdentity "[1]" = some (errorReply "invalid_request") ∧
    handle cDecode cRunPrompt cIdentity "resume" = some (errorReply "unknown_kind") ∧
    handle cDecode cRunPrompt cIdentity "blank prompt" = some (errorReply "empty_prompt") := by
  refine ⟨?_, ?_, ?_, ?_⟩
  · exact (c7_malformed_requests cDecode cRunPrompt cIdentity "bad json"
      (by decide)).1 rfl
  · exact (c7_malformed_requests cDecode cRunPrompt cIdentity "[1]"
      (by decide)).2.1 (.arr [.num 1]) rfl rfl
  · exact (c7_malformed_requests cDecode cRunPrompt cIdentity "resume"
      (by decide)).2.2.1 (.obj [("kind", .str "resume")]) rfl rfl
      (by decide) (by decide) (by decide)
  · refine (c7_malformed_requests cDecode cRunPrompt cIdentity "blank prompt"
      (by decide)).2.2.2.1 (.obj [("kind", .str "prompt"), ("prompt", .str "   ")])
      rfl rfl (by decide) ?_
    intro p hp
    simp [Json.get?, List.lookup] at hp
    subst hp
    decide

/-- C10: for a well-formed prompt request (object, kind `"prompt"`,
non-whitespace string prompt) the broker's reply always has `ok = true`;
the external tool's exit status appears only in the `exitCode` and
`output` fields and a non-zero exit never produces an `ok:false` error
reply. -/
theorem c10_prompt_reply_always_ok (decode : String → Option Json)
    (runPrompt : String → Int × String) (cfg : BrokerIdentity)
    (raw p : String) (req : Json)
    (hraw : raw ≠ "") (hdec : decode raw = some req) (hobj : req.isObj = true)
    (hkind : isStrEq (req.get? "kind") "prompt" = true)
    (hp : req.get? "prompt" = some (.str p)) (hne : strStrip p ≠ "") :
    handle decode runPrompt cfg raw =
      some (.obj [("ok", .bool true), ("exitCode", .num (runPrompt p).1),
                  ("output", .str (runPrompt p).2)]) := by
  have hping : isStrEq (req.get? "kind") "ping" = false :=
    isStrEq_unique hkind (by decide)
  have hinfo : isStrEq (req.get? "kind") "info" = false :=
    isStrEq_unique hkind (by decide)
  simp [handle, hraw, hdec, hobj, hping, hinfo, hkind, hp, hne]

/-- C10 witness: a prompt whose external invocation exits 2 is still
answered with `ok:true`, carrying the exit code and output verbatim. -/
theorem c10_prompt_reply_always_ok_witness :
    handle cDecode cRunPrompt cIdentity "failing prompt" =
      some (.obj [("ok", .bool true), ("exitCode", .num 2),
                  ("output", .str "boom: hi there")]) :=
  c10_prompt_reply_always_ok cDecode cRunPrompt cIdentity "failing prompt"
    "hi there" (.obj [("kind", .str "prompt"), ("prompt", .str "hi there")])
    (by decide) rfl rfl rfl rfl (by decide)

/-- C5: `read_json` on a missing or blank backing file returns the empty
document and leaves the store untouched; on a decode failure it moves the
unreadable file aside under exactly one new timestamped quarantine name,
returns the empty document (never raising), and a subsequent `write_json`
succeeds, leaving the serialized document as the file content. -/
theorem c5_read_corruption_recovery (loads : String → Option Json)
    (now : String) (fs : StoreFs) :
    (fs.data = none → readJson loads now fs = (.obj [], fs)) ∧
    (∀ raw, fs.data = some raw → strStrip raw = "" →
      readJson loads now fs = (.obj [], fs)) ∧
    (∀ raw, fs.data = some raw → strStrip raw ≠ "" → loads (strStrip raw) = none →
      readJson loads now fs =
        (.obj [], { fs with
          data := none
          quarantined := fs.quarantined ++ [(corruptName fs.name now, raw)] }) ∧
      (readJson loads now fs).2.quarantined.length = fs.quarantined.length + 1 ∧
      ∀ d, (writeJson (readJson loads now fs).2 d).data = some (d.dumps ++ "\n")) := by
  refine ⟨?_, ?_, ?_⟩
  · intro hnone
    simp [readJson, hnone]
  · intro raw hraw hblank
    simp [readJson, hraw, hblank]
  · intro raw hraw hblank hload
    have hread : readJson loads now fs =
        (.obj [], { fs with
          data := none
          quarantined := fs.quarantined ++ [(corruptName fs.name now, raw)] }) := by
      simp [readJson, hraw, hblank, hload]
    refine ⟨hread, ?_, ?_⟩
    · rw [hread]
      simp
    · intro d
      rw [hread]
      rfl

/-- C5 witness: a garbage file is quarantined exactly once, the read
yields the empty document, and the next write succeeds. -/
theorem c5_read_corruption_recovery_witness :
    readJson (fun _ => none) "2026-01-02T03:04:05Z"
        { name := "session.json", data := some "garbage", quarantined := [] } =
      (.obj [], { name := "session.json", data := none,
                  quarantined := [("session.json.corrupt-2026-01-02T030405Z", "garbage")] }) := by
  have h := ((c5_read_corruption_recovery (fun _ => none) "2026-01-02T03:04:05Z"
    { name := "session.json", data := some "garbage", quarantined := [] }).2.2
    "garbage" rfl (by decide) rfl).1
  rw [h]
  rfl

/-- C3: applying a successful invocation outcome (exit status zero, body
`b`, fresh id `i`) to a persona's artifact always yields the artifact
`(b, i)` — created on the first success, overwritten rather than appended
on later ones — and when an artifact existed before, its response id is
changed by the update (the fresh id differs from the stored one). -/
theorem c3_artifact_written_on_success (st : Option ResponseArtifact)
    (rs : List (Int × String × String)) (body newId : String)
    (hfresh : ∀ a, runPromptResults st rs = some a → newId ≠ a.responseId) :
    runPromptResults st (rs ++ [(0, body, newId)]) =
      some { body := body, responseId := newId } ∧
    (∀ a, runPromptResults st rs = some a →
      (runPromptResults st (rs ++ [(0, body, newId)])).map ResponseArtifact.responseId ≠
        some a.responseId) := by
  have hrun : runPromptResults st (rs ++ [(0, body, newId)]) =
      some { body := body, responseId := newId } := by
    unfold runPromptResults
    rw [List.foldl_append]
    rfl
  refine ⟨hrun, ?_⟩
  intro a ha hcontra
  rw [hrun] at hcontra
  simp at hcontra
  exact hfresh a ha hcontra

/-- C3 witness: starting with no artifact, one failure leaves nothing,
then a success creates the artifact; a second success overwrites the body
and changes the id. -/
theorem c3_artifact_written_on_success_witness :
    runPromptResults none [(1, "err", "i0")] = none ∧
    runPromptResults none ([(1, "err", "i0")] ++ [(0, "first answer", "i1")]) =
      some { body := "first answer", responseId := "i1" } ∧
    runPromptResults none ([(1, "err", "i0"), (0, "first answer", "i1")] ++
        [(0, "second answer", "i2")]) =
      some { body := "second answer", responseId := "i2" } ∧
    (runPromptResults none ([(1, "err", "i0"), (0, "first answer", "i1")] ++
        [(0, "second answer", "i2")])).map ResponseArtifact.responseId ≠ some "i1" := by
  have h1 := c3_artifact_written_on_success none [(1, "err", "i0")] "first answer" "i1"
    (by intro a ha
        simp [runPromptResults, applyPromptResult, writeResponseArtifact] at ha)
  have h2 := c3_artifact_written_on_success none [(1, "err", "i0"), (0, "first answer", "i1")]
    "second answer" "i2"
    (by intro a ha
        simp [runPromptResults, applyPromptResult, writeResponseArtifact] at ha
        subst ha
        decide)
  refine ⟨rfl, h1.1, h2.1, ?_⟩
  have := h2.2 { body := "first answer", responseId := "i1" } rfl
  simpa using this

/-- Lock invariant: in every reachable state, a thread inside the
critical section is the lock holder. -/
theorem brokerLock_running_holds_lock (s : BrokerLockState)
    (hreach : BrokerLockReachable s) :
    ∀ t, s.pc t = .running → s.holder = some t := by
  induction hreach with
  | refl =>
    intro t ht
    simp [brokerLockInit] at ht
  | tail _ hstep ih =>
    cases hstep with
    | request u hu =>
      intro t ht
      simp only [Function.update_apply] at ht
      by_cases htu : t = u
      · rw [if_pos htu] at ht
        exact absurd ht (by decide)
      · rw [if_neg htu] at ht
        exact ih t ht
    | acquire u hu hfree =>
      intro t ht
      simp only [Function.update_apply] at ht
      by_cases htu : t = u
      · subst htu
        rfl
      · rw [if_neg htu] at ht
        have := ih t ht
        rw [hfree] at this
        exact absurd this (by simp)
    | release u hu =>
      intro t ht
      simp only [Function.update_apply] at ht
      by_cases htu : t = u
      · rw [if_pos htu] at ht
        exact absurd ht (by decide)
      · rw [if_neg htu] at ht
        have h1 := ih t ht
        have h2 := ih u hu
        rw [h1] at h2
        injection h2 with h3
        exact absurd h3 htu

/-- C1: for any number of concurrent prompt-handler threads of one broker
instance, at most one external-assistant invocation is in flight at any
instant: in every reachable interleaving state, two threads both inside
the subprocess-launching critical section are the same thread. -/
theorem c1_at_most_one_invocation (s : BrokerLockState)
    (hreach : BrokerLockReachable s) (t1 t2 : Nat)
    (h1 : invocationInFlight s t1) (h2 : invocationInFlight s t2) : t1 = t2 := by
  have e1 := brokerLock_running_holds_lock s hreach t1 h1
  have e2 := brokerLock_running_holds_lock s hreach t2 h2
  rw [e1] at e2
  injection e2

/-- The demo state is reachable: thread 0 requests and then acquires the
lock. -/
theorem brokerLockDemo_reachable : BrokerLockReachable brokerLockDemo :=
  Relation.ReflTransGen.tail
    (Relation.ReflTransGen.tail Relation.ReflTransGen.refl
      (BrokerStep.request brokerLockInit 0 rfl))
    (BrokerStep.acquire brokerLockMid 0 rfl rfl)

/-- C1 witness: in the concrete reachable state where thread 0 is inside
the critical section, the mutual-exclusion theorem applies. -/
theorem c1_at_most_one_invocation_witness :
    invocationInFlight brokerLockDemo 0 ∧ (0 : Nat) = 0 :=
  ⟨rfl, c1_at_most_one_invocation brokerLockDemo brokerLockDemo_reachable 0 0 rfl rfl⟩

/-- `x or y or y` collapses to `x or y`. -/
theorem pyOr_pyOr_self (x y : Json) : pyOr (pyOr x y) y = pyOr x y := by
  unfold pyOr
  by_cases h : x.truthy
  · simp [h]
  · simp [h]

/-- Re-defaulting an already-defaulted value with any new default changes
nothing when the first default was truthy. -/
theorem pyOr_absorb (x y0 y : Json) (h : y0.truthy = true) :
    pyOr (pyOr x y0) y = pyOr x y0 := by
  unfold pyOr
  by_cases hx : x.truthy
  · simp [hx]
  · simp [hx, h]

/-- The truthiness of `x or y`. -/
theorem pyOr_truthy (x y : Json) : (pyOr x y).truthy = (x.truthy || y.truthy) := by
  unfold pyOr
  by_cases h : x.truthy <;> simp [h]

/-- A normalized status is always a member of the allowed set. -/
theorem normStatus_contains (v : Option Json) :
    ALLOWED_STATUSES.contains (normStatus v) = true := by
  unfold normStatus
  match v with
  | none => rfl
  | some .null | some (.bool _) | some (.num _) | some (.arr _) | some (.obj _) =>
    rfl
  | some (.str s) =>
    by_cases h : s ∈ ALLOWED_STATUSES
    · simp [h]
    · simp [h]
      decide

/-- Membership form of `normStatus_contains`. -/
theorem normStatus_mem (v : Option Json) : normStatus v ∈ ALLOWED_STATUSES := by
  have h := normStatus_contains v
  exact List.mem_of_elem_eq_true h

/-- Normalizing an already-normalized status changes nothing. -/
theorem normStatus_fix (v : Option Json) :
    normStatus (some (.str (normStatus v))) = normStatus v := by
  show (if ALLOWED_STATUSES.contains (normStatus v) = true
        then normStatus v else "idle") = normStatus v
  rw [if_pos (normStatus_contains v)]

/-- Normalizing an already-normalized inputReady changes nothing. -/
theorem normInputReady_fix (v : Option Json) :
    normInputReady (some (normInputReady v)) = normInputReady v := by
  unfold normInputReady
  match v with
  | none => rfl
  | some .null | some (.str _) | some (.num _) | some (.arr _) | some (.obj _) => rfl
  | some (.bool b) => rfl

/-- A non-empty string is truthy. -/
theorem str_truthy (s : String) (h : s ≠ "") : (Json.str s).truthy = true := by
  cases he : s.isEmpty
  · simp [Json.truthy, he]
  · exact absurd (by simpa [String.isEmpty_iff] using he) h

/-- Normalizing a persona record twice is the same as normalizing it
once (the first normalization's defaults are all truthy, so the second
pass keeps every field). -/
theorem normalizePersona_idem (now now0 disp : String) (ex : Json)
    (h0 : now0 ≠ "") :
    normalizePersona now disp (normalizePersona now0 disp ex) =
      normalizePersona now0 disp ex := by
  have htr := str_truthy now0 h0
  conv_lhs => rw [normalizePersona]
  simp only [normalizePersona, Json.isObj, if_true, Json.get?, List.lookup]
  norm_num
  exact ⟨pyOr_pyOr_self _ _, normStatus_fix _, pyOr_absorb _ _ _ htr,
    pyOr_pyOr_self _ _, normInputReady_fix _, pyOr_pyOr_self _ _⟩

/-- Normalizing any document already in normalized shape (current
version, rebuilt persona table, truthy `createdAt`) changes nothing. -/
theorem normalize_of_normalized_shape (repoRoot now0 now : String)
    (c e1 e2 e3 e4 : Json) (hc : c.truthy = true) (h0 : now0 ≠ "") :
    normalizeSessionState repoRoot now
      (.obj [("version", .num CURRENT_SESSION_VERSION),
             ("sessionName", .str SESSION_NAME),
             ("repoRoot", .str repoRoot),
             ("createdAt", c),
             ("personas", .obj
               [("pm", normalizePersona now0 "Project Manager" e1),
                ("impl", normalizePersona now0 "Implementation Engineer" e2),
                ("review", normalizePersona now0 "Code Review Engineer" e3),
                ("docs", normalizePersona now0 "Technical Writer / Documentor" e4)])]) =
      .obj [("version", .num CURRENT_SESSION_VERSION),
            ("sessionName", .str SESSION_NAME),
            ("repoRoot", .str repoRoot),
            ("createdAt", c),
            ("personas", .obj
              [("pm", normalizePersona now0 "Project Manager" e1),
               ("impl", normalizePersona now0 "Implementation Engineer" e2),
               ("review", normalizePersona now0 "Code Review Engineer" e3),
               ("docs", normalizePersona now0 "Technical Writer / Documentor" e4)])] := by
  have hid : ∀ disp ex, normalizePersona now disp (normalizePersona now0 disp ex) =
      normalizePersona now0 disp ex :=
    fun disp ex => normalizePersona_idem now now0 disp ex h0
  simp only [normalizeSessionState, PERSONAS, List.map, List.isEmpty_cons,
    Bool.false_eq_true, if_false, Json.get?, List.lookup, Option.getD,
    Json.isObj, pyOr, hc, if_true, hid]
  simp [hid, hc, List.lookup]

/-- A default persona record is what normalizing an empty record yields. -/
theorem defaultRecord_eq_normalizePersona (now0 disp : String) :
    Json.obj [("displayName", .str disp), ("status", .str "idle"),
              ("updatedAt", .str now0), ("message", .str ""),
              ("inputReady", .bool false), ("paneId", .str "")] =
      normalizePersona now0 disp (.obj []) := rfl

/-- Normalizing a normalized document once more (possibly at a later
timestamp) changes nothing. -/
theorem normalizeSessionState_idem (repoRoot now0 now : String) (d : Json)
    (h0 : now0 ≠ "") :
    normalizeSessionState repoRoot now (normalizeSessionState repoRoot now0 d) =
      normalizeSessionState repoRoot now0 d := by
  have htr := str_truthy now0 h0
  have hinit : normalizeSessionState repoRoot now (initSessionState repoRoot now0) =
      initSessionState repoRoot now0 := by
    simp only [initSessionState, PERSONAS, List.map,
      defaultRecord_eq_normalizePersona]
    exact normalize_of_normalized_shape repoRoot now0 now (.str now0)
      (.obj []) (.obj []) (.obj []) (.obj []) htr h0
  cases d with
  | obj fs =>
    by_cases hfs : fs.isEmpty = true
    · have hbr : normalizeSessionState repoRoot now0 (.obj fs) =
          initSessionState repoRoot now0 := by
        simp only [normalizeSessionState, hfs, if_true]
      rw [hbr]
      exact hinit
    · have hfs' : fs.isEmpty = false := by
        cases he : fs.isEmpty
        · rfl
        · exact absurd he hfs
      have hbr : normalizeSessionState repoRoot now0 (.obj fs) =
          .obj [("version", .num CURRENT_SESSION_VERSION),
                ("sessionName", .str SESSION_NAME),
                ("repoRoot", .str repoRoot),
                ("createdAt", pyOr (((Json.obj fs).get? "createdAt").getD .null)
                  (.str now0)),
                ("personas", .obj (PERSONAS.map (fun kd =>
                  (kd.1, normalizePersona now0 kd.2
                    ((((match (Json.obj fs).get? "personas" with
                        | some p => if p.isObj then p else .obj []
                        | none => .obj []) : Json).get? kd.1).getD .null)))))] := by
        simp only [normalizeSessionState, hfs', Bool.false_eq_true, if_false]
      rw [hbr]
      simp only [PERSONAS, List.map]
      exact normalize_of_normalized_shape repoRoot now0 now _ _ _ _ _
        (by rw [pyOr_truthy]; simp [htr]) h0
  | null => exact hinit
  | bool b => exact hinit
  | num n => exact hinit
  | str s => exact hinit
  | arr xs => exact hinit

/-- The version field of every normalized document is the current schema
version. -/
theorem normalizeSessionState_version (r now : String) (d : Json) :
    (normalizeSessionState r now d).get? "version" =
      some (.num CURRENT_SESSION_VERSION) := by
  cases d with
  | obj fs =>
    by_cases hfs : fs.isEmpty = true
    · simp [normalizeSessionState, hfs, initSessionState, Json.get?, List.lookup]
    · simp [normalizeSessionState, hfs, Json.get?, List.lookup]
  | null => rfl
  | bool b => rfl
  | num n => rfl
  | str s => rfl
  | arr xs => rfl

/-- C4: normalization is idempotent. Modelling the store round trip
`read(write(D)) = D` (the store serializes with `json.dumps` and reads
back with `json.loads`), a valid document — one in the image of
normalization, produced at some non-empty timestamp — is left unchanged
by a further normalization, so its serialized form is reproduced
byte-for-byte; and normalizing any document, partial or old, rewrites
the version to the current schema version. -/
theorem c4_state_round_trip (repoRoot now0 now : String) (d0 D : Json)
    (h0 : now0 ≠ "") (hD : D = normalizeSessionState repoRoot now0 d0) :
    Json.dumps (normalizeSessionState repoRoot now D) = Json.dumps D ∧
    normalizeSessionState repoRoot now D = D ∧
    (normalizeSessionState repoRoot now0 d0).get? "version" =
      some (.num CURRENT_SESSION_VERSION) := by
  subst hD
  refine ⟨?_, ?_, ?_⟩
  · rw [normalizeSessionState_idem repoRoot now0 now d0 h0]
  · exact normalizeSessionState_idem repoRoot now0 now d0 h0
  · exact normalizeSessionState_version repoRoot now0 d0

/-- C4 witness: an old partial document (version 1, no personas) is
normalized once; normalizing the result at a later timestamp changes
nothing. -/
theorem c4_state_round_trip_witness :
    normalizeSessionState "/repo" "2026-01-02T00:00:01Z"
        (normalizeSessionState "/repo" "2026-01-01T00:00:00Z"
          (.obj [("version", .num 1)])) =
      normalizeSessionState "/repo" "2026-01-01T00:00:00Z"
        (.obj [("version", .num 1)]) :=
  (c4_state_round_trip "/repo" "2026-01-01T00:00:00Z" "2026-01-02T00:00:01Z"
    (.obj [("version", .num 1)]) _ (by decide) rfl).2.1

/-- Looking up the key just assigned yields the assigned value. -/
theorem lookup_setField_self (fs : List (String × Json)) (k : String) (v : Json) :
    List.lookup k (setField fs k v) = some v := by
  induction fs with
  | nil => simp [setField, List.lookup]
  | cons hd tl ih =>
    by_cases h : hd.1 = k
    · simp [setField, h, List.lookup]
    · simp only [setField]
      rw [if_neg (by exact fun hc => h (by simp [hc]))]
      simp only [List.lookup]
      rw [show (k == hd.1) = false from by
        simp only [beq_eq_false_iff_ne]
        exact fun hc => h hc.symm]
      exact ih

/-- Assignment to one key leaves lookups of other keys unchanged. -/
theorem lookup_setField_ne (fs : List (String × Json)) (k k' : String) (v : Json)
    (h : k' ≠ k) :
    List.lookup k' (setField fs k v) = List.lookup k' fs := by
  induction fs with
  | nil =>
    simp only [setField, List.lookup]
    rw [show (k' == k) = false from by
      simp only [beq_eq_false_iff_ne]
      exact h]
  | cons hd tl ih =>
    by_cases hh : hd.1 = k
    · simp only [setField, hh, if_pos rfl]
      simp only [List.lookup]
      rw [show (k' == k) = false from by
        simp only [beq_eq_false_iff_ne]
        exact h]
      rw [show (k' == hd.1) = false from by
        simp only [beq_eq_false_iff_ne]
        rw [hh]
        exact h]
    · simp only [setField]
      rw [if_neg (by exact fun hc => hh (by simp [hc]))]
      simp only [List.lookup]
      cases hbe : (k' == hd.1)
      · exact ih
      · rfl

/-- `set` keeps a JSON object an object. -/
theorem isObj_set (j : Json) (k : String) (v : Json) :
    (j.set k v).isObj = j.isObj := by
  cases j <;> rfl

/-- `get?` after `set` at the same key on an object. -/
theorem get?_set_self (j : Json) (hj : j.isObj = true) (k : String) (v : Json) :
    (j.set k v).get? k = some v := by
  cases j with
  | obj fs => exact lookup_setField_self fs k v
  | null | bool _ | num _ | str _ | arr _ => simp [Json.isObj] at hj

/-- `get?` after `set` at a different key on an object. -/
theorem get?_set_ne (j : Json) (hj : j.isObj = true) (k k' : String) (v : Json)
    (h : k' ≠ k) : (j.set k v).get? k' = j.get? k' := by
  cases j with
  | obj fs => exact lookup_setField_ne fs k k' v h
  | null | bool _ | num _ | str _ | arr _ => simp [Json.isObj] at hj

/-- The branch of `_normalize_session_state` taken on an empty dict. -/
theorem normalizeSessionState_empty (r now : String)
    (fs : List (String × Json)) (hfs : fs.isEmpty = true) :
    normalizeSessionState r now (.obj fs) = initSessionState r now := by
  simp only [normalizeSessionState, hfs, if_true]

/-- The branch of `_normalize_session_state` taken on a non-empty dict. -/
theorem normalizeSessionState_main (r now : String)
    (fs : List (String × Json)) (hfs : fs.isEmpty = false) :
    normalizeSessionState r now (.obj fs) =
      .obj [("version", .num CURRENT_SESSION_VERSION),
            ("sessionName", .str SESSION_NAME),
            ("repoRoot", .str r),
            ("createdAt", pyOr (((Json.obj fs).get? "createdAt").getD .null)
              (.str now)),
            ("personas", .obj (PERSONAS.map (fun kd =>
              (kd.1, normalizePersona now kd.2
                ((((match (Json.obj fs).get? "personas" with
                    | some p => if p.isObj then p else .obj []
                    | none => .obj []) : Json).get? kd.1).getD .null)))))] := by
  simp only [normalizeSessionState, hfs, Bool.false_eq_true, if_false]

/-- Every normalized document is an object whose persona table contains
an object record for every persona of the closed set, each carrying an
allowed status. -/
theorem normalizeSessionState_personas_full (r now : String) (d : Json) :
    ∃ M, (normalizeSessionState r now d).isObj = true ∧
      (normalizeSessionState r now d).get? "personas" = some (.obj M) ∧
      ∀ kd ∈ PERSONAS, ∃ rec s, List.lookup kd.1 M = some rec ∧
        rec.isObj = true ∧ rec.get? "status" = some (.str s) ∧
        s ∈ ALLOWED_STATUSES := by
  have haux : ∀ (g : String × String → Json), ∀ kd ∈ PERSONAS, ∃ rec s,
      List.lookup kd.1 (PERSONAS.map (fun p =>
        (p.1, normalizePersona now p.2 (g p)))) = some rec ∧
      rec.isObj = true ∧ rec.get? "status" = some (.str s) ∧
      s ∈ ALLOWED_STATUSES := by
    intro g kd hkd
    fin_cases hkd <;> exact ⟨_, _, rfl, rfl, rfl, normStatus_mem _⟩
  cases d with
  | obj fs =>
    by_cases hfs : fs.isEmpty = true
    · rw [normalizeSessionState_empty r now fs hfs]
      exact ⟨_, rfl, rfl, haux (fun _ => .obj [])⟩
    · have hfs' : fs.isEmpty = false := by
        cases he : fs.isEmpty
        · rfl
        · exact absurd he hfs
      rw [normalizeSessionState_main r now fs hfs']
      exact ⟨_, rfl, rfl, haux (fun p =>
        (((match (Json.obj fs).get? "personas" with
           | some p => if p.isObj then p else .obj []
           | none => .obj []) : Json).get? p.1).getD .null)⟩
  | null => exact ⟨_, rfl, rfl, haux (fun _ => .obj [])⟩
  | bool b => exact ⟨_, rfl, rfl, haux (fun _ => .obj [])⟩
  | num n => exact ⟨_, rfl, rfl, haux (fun _ => .obj [])⟩
  | str s => exact ⟨_, rfl, rfl, haux (fun _ => .obj [])⟩
  | arr xs => exact ⟨_, rfl, rfl, haux (fun _ => .obj [])⟩

/-- C6: every normalized document — and hence every document written by
the status, set-status, wait and ask operations, which all write either a
normalized document or a normalized document with one validated status
overwritten — contains an entry for every persona key of the fixed
closed set, whose status is in the allowed set; and any input status
value outside that set is normalized to `"idle"`. -/
theorem c6_personas_closed_statuses_allowed (repoRoot now persona status : String)
    (message : Option String) (d : Json)
    (hmem : persona ∈ PERSONAS.map Prod.fst) (hstat : status ∈ ALLOWED_STATUSES) :
    (∀ kd ∈ PERSONAS, ∃ rec s,
      (((normalizeSessionState repoRoot now d).get? "personas").getD
        .null).get? kd.1 = some rec ∧
      rec.get? "status" = some (.str s) ∧ s ∈ ALLOWED_STATUSES) ∧
    (∀ kd ∈ PERSONAS, ∃ rec s,
      (((cmdSetStatusDoc repoRoot now persona status message d).get? "personas").getD
        .null).get? kd.1 = some rec ∧
      rec.get? "status" = some (.str s) ∧ s ∈ ALLOWED_STATUSES) ∧
    (∀ v : Json, (∀ s, v = .str s → s ∉ ALLOWED_STATUSES) →
      normStatus (some v) = "idle") := by
  obtain ⟨M, hobj, hpers, hwf⟩ := normalizeSessionState_personas_full repoRoot now d
  refine ⟨?_, ?_, ?_⟩
  · intro kd hkd
    obtain ⟨rec, s, hlook, _, hst, hmemS⟩ := hwf kd hkd
    refine ⟨rec, s, ?_, hst, hmemS⟩
    rw [hpers]
    exact hlook
  · intro kd hkd
    obtain ⟨kp, hkp, hkpeq⟩ := List.mem_map.mp hmem
    obtain ⟨rec0, s0, hlook0, hrec0obj, _, _⟩ := hwf kp hkp
    have hrecord : ((Json.obj M).get? persona).getD (.obj []) = rec0 := by
      rw [← hkpeq]
      simp only [Json.get?, hlook0, Option.getD_some]
    have hdoc : cmdSetStatusDoc repoRoot now persona status message d =
        (normalizeSessionState repoRoot now d).set "personas"
          ((Json.obj M).set persona
            (match message with
             | some m => ((rec0.set "status" (.str status)).set "updatedAt"
                 (.str now)).set "message" (.str m)
             | none => (rec0.set "status" (.str status)).set "updatedAt"
                 (.str now))) := by
      simp only [cmdSetStatusDoc, hpers, Option.getD_some, hrecord]
    rw [hdoc, get?_set_self _ hobj, Option.getD_some]
    cases message with
    | none =>
      by_cases hk : kd.1 = persona
      · refine ⟨(rec0.set "status" (.str status)).set "updatedAt" (.str now),
          status, ?_, ?_, hstat⟩
        · rw [hk]
          exact get?_set_self (Json.obj M) rfl persona _
        · rw [get?_set_ne _ (by rw [isObj_set]; exact hrec0obj) _ _ _ (by decide)]
          exact get?_set_self rec0 hrec0obj "status" (.str status)
      · obtain ⟨rec, s, hlook, _, hst, hmemS⟩ := hwf kd hkd
        refine ⟨rec, s, ?_, hst, hmemS⟩
        rw [get?_set_ne (Json.obj M) rfl persona kd.1 _ hk]
        exact hlook
    | some m =>
      by_cases hk : kd.1 = persona
      · refine ⟨((rec0.set "status" (.str status)).set "updatedAt"
            (.str now)).set "message" (.str m), status, ?_, ?_, hstat⟩
        · rw [hk]
          exact get?_set_self (Json.obj M) rfl persona _
        · rw [get?_set_ne _ (by rw [isObj_set, isObj_set]; exact hrec0obj) _ _ _
            (by decide)]
          rw [get?_set_ne _ (by rw [isObj_set]; exact hrec0obj) _ _ _ (by decide)]
          exact get?_set_self rec0 hrec0obj "status" (.str status)
      · obtain ⟨rec, s, hlook, _, hst, hmemS⟩ := hwf kd hkd
        refine ⟨rec, s, ?_, hst, hmemS⟩
        rw [get?_set_ne (Json.obj M) rfl persona kd.1 _ hk]
        exact hlook
  · intro v hv
    match v with
    | .null | .bool _ | .num _ | .arr _ | .obj _ => rfl
    | .str s =>
      have := hv s rfl
      simp only [normStatus]
      rw [if_neg (by simpa using this)]

/-- C6 witness: normalizing a document whose `pm` record carries the
invalid status `"bogus"` yields a `pm` record with an allowed status,
and `"bogus"` itself normalizes to `"idle"`. -/
theorem c6_personas_closed_statuses_allowed_witness :
    (∃ rec s,
      (((normalizeSessionState "/repo" "2026-01-01T00:00:00Z"
          (.obj [("personas", .obj [("pm", .obj [("status", .str "bogus")])])])).get?
            "personas").getD .null).get? "pm" = some rec ∧
      rec.get? "status" = some (.str s) ∧ s ∈ ALLOWED_STATUSES) ∧
    normStatus (some (.str "bogus")) = "idle" := by
  have h := c6_personas_closed_statuses_allowed "/repo" "2026-01-01T00:00:00Z"
    "pm" "done" none
    (.obj [("personas", .obj [("pm", .obj [("status", .str "bogus")])])])
    (by decide) (by decide)
  refine ⟨h.1 ("pm", "Project Manager") (by decide), ?_⟩
  refine h.2.2 (.str "bogus") ?_
  intro s hs
  cases hs
  decide

/-- Running a concatenated event trace is the sequential composition. -/
theorem runTrace_append (origin : String) (s : SchedState)
    (es1 es2 : List SchedEvent) :
    runTrace origin s (es1 ++ es2) =
      (runTrace origin s es1).bind (fun m => runTrace origin m es2) := by
  induction es1 generalizing s with
  | nil => simp [runTrace]
  | cons e es ih =>
    simp only [List.cons_append, runTrace]
    cases schedStepFn origin s e with
    | none => simp
    | some s1 => simpa using ih s1

/-- A single scheduler event other than observing `p` never removes `p`
from the active set. -/
theorem schedStepFn_active_mono (origin : String) (s s' : SchedState)
    (e : SchedEvent) (p : String) (hstep : schedStepFn origin s e = some s')
    (hp : p ∈ s.active) (hne : e ≠ .observe p) : p ∈ s'.active := by
  cases e with
  | dropTimedOut =>
    simp only [schedStepFn] at hstep
    cases hstep
    exact hp
  | observe q =>
    simp only [schedStepFn] at hstep
    split at hstep
    · cases hstep
      exact (List.mem_erase_of_ne (fun hc : p = q => hne (by rw [hc]))).mpr hp
    · cases hstep
  | dispatch r ok =>
    simp only [schedStepFn] at hstep
    split at hstep
    · split at hstep
      · cases hstep
        exact List.mem_append_left _ hp
      · cases hstep
        exact hp
    · cases hstep

/-- A whole trace without an `observe p` event keeps `p` active. -/
theorem active_persists (origin : String) (p : String) (s s' : SchedState)
    (es : List SchedEvent) (hp : p ∈ s.active)
    (hrun : runTrace origin s es = some s')
    (hno : SchedEvent.observe p ∉ es) : p ∈ s'.active := by
  induction es generalizing s with
  | nil =>
    cases hrun
    exact hp
  | cons e es ih =>
    simp only [runTrace] at hrun
    cases hstep : schedStepFn origin s e with
    | none =>
      rw [hstep] at hrun
      simp at hrun
    | some s1 =>
      rw [hstep] at hrun
      refine ih s1 ?_ hrun (fun hc => hno (List.mem_cons_of_mem _ hc))
      exact schedStepFn_active_mono origin s s1 e p hstep hp
        (fun hc => hno (by rw [hc]; exact List.mem_cons_self _ _))

/-- A dispatch is rejected while any dependency persona is active. -/
theorem schedStepFn_dispatch_no_active_dep (origin : String) (s s' : SchedState)
    (r : AgentRequest) (ok : Bool) (p : String)
    (hstep : schedStepFn origin s (.dispatch r ok) = some s')
    (hp : p ∈ s.active) (hdep : p ∈ r.deps) : False := by
  have hblock : hasBlockingDependency s.pending s.active r = true := by
    unfold hasBlockingDependency
    simp only [Bool.or_eq_true, List.any_eq_true]
    right
    exact ⟨p, hdep, by simpa using hp⟩
  simp only [schedStepFn, hblock] at hstep
  simp at hstep

/-- Inversion of a successful dispatch step: the eligibility conditions
of pane_repl.py lines 401-404 hold. -/
theorem schedStepFn_dispatch_inversion (origin : String) (s s' : SchedState)
    (r : AgentRequest) (ok : Bool)
    (hstep : schedStepFn origin s (.dispatch r ok) = some s') :
    r ∈ s.pending ∧ r.persona ∉ s.active ∧
      hasBlockingDependency s.pending s.active r = false := by
  simp only [schedStepFn] at hstep
  split at hstep
  case isTrue h =>
    simp only [Bool.and_eq_true, Bool.not_eq_true'] at h
    obtain ⟨⟨h1, h2⟩, h3⟩ := h
    refine ⟨by simpa using h1, by simpa using h2, h3⟩
  case isFalse h => cases hstep

/-- C8 counterexample to the claim as stated: when `A`'s peer dispatch
fails (`_dispatch_to_pane` returns False — no pane, input-ready timeout,
or tmux error), `A` has already left `pending` without entering
`active_personas`, so `B` — whose dependency set contains `A`'s persona
— is dispatched next even though no response-artifact update for `A`'s
persona was ever observed. -/
theorem c8_dependency_ordering_counterexample :
    exReqA.idx < exReqB.idx ∧ exReqA.persona ∈ exReqB.deps ∧
    runTrace "impl" { pending := [exReqA, exReqB], active := [] }
        [.dispatch exReqA false, .dispatch exReqB true] =
      some { pending := [], active := ["docs"] } ∧
    SchedEvent.observe exReqA.persona ∉
      [SchedEvent.dispatch exReqA false, SchedEvent.dispatch exReqB true] := by
  refine ⟨by decide, by decide, by decide, by decide⟩

/-- C8 amended: in every scheduler trace, whenever `A` was dispatched as
a *successful peer dispatch* and a later event dispatches `B` whose
dependency set contains `A`'s persona, an observation of `A`'s
response-artifact change lies strictly between the two dispatches (if
`A`'s dispatch fails, or `A` targets the origin persona, `B` may start
without such an update); moreover every dispatch step obeys the
eligibility conditions: the target not active, no dependency persona
active, no earlier pending segment sharing the target or appearing in
the dependency set. -/
theorem c8_dependency_ordering_amended (origin : String) (s0 sF : SchedState)
    (A B : AgentRequest) (okB : Bool) (es1 es2 es3 : List SchedEvent)
    (hAp : A.persona ≠ origin) (hdep : A.persona ∈ B.deps)
    (hrun : runTrace origin s0
      (es1 ++ .dispatch A true :: (es2 ++ .dispatch B okB :: es3)) = some sF) :
    SchedEvent.observe A.persona ∈ es2 ∧
    (∀ (s s' : SchedState) (r : AgentRequest) (ok : Bool),
      schedStepFn origin s (.dispatch r ok) = some s' →
      r ∈ s.pending ∧ r.persona ∉ s.active ∧
        hasBlockingDependency s.pending s.active r = false) := by
  refine ⟨?_, fun s s' r ok h => schedStepFn_dispatch_inversion origin s s' r ok h⟩
  rw [runTrace_append] at hrun
  cases h1 : runTrace origin s0 es1 with
  | none =>
    rw [h1] at hrun
    simp at hrun
  | some s1 =>
    rw [h1] at hrun
    simp only [Option.some_bind] at hrun
    simp only [runTrace] at hrun
    cases h2 : schedStepFn origin s1 (.dispatch A true) with
    | none =>
      rw [h2] at hrun
      simp at hrun
    | some s2 =>
      rw [h2] at hrun
      dsimp only at hrun
      have hmem2 : A.persona ∈ s2.active := by
        simp only [schedStepFn] at h2
        split at h2
        · rw [show (true && (A.persona != origin)) = true from by
            simpa using hAp] at h2
          rw [if_pos rfl] at h2
          cases h2
          simp
        · cases h2
      by_contra hno
      rw [runTrace_append] at hrun
      cases h3 : runTrace origin s2 es2 with
      | none =>
        rw [h3] at hrun
        simp at hrun
      | some s3 =>
        rw [h3] at hrun
        simp only [Option.some_bind] at hrun
        have hmem3 : A.persona ∈ s3.active :=
          active_persists origin A.persona s2 s3 es2 hmem2 h3 hno
        simp only [runTrace] at hrun
        cases h4 : schedStepFn origin s3 (.dispatch B okB) with
        | none =>
          rw [h4] at hrun
          simp at hrun
        | some s4 =>
          exact schedStepFn_dispatch_no_active_dep origin s3 s4 B okB
            A.persona h4 hmem3 hdep

/-- C8 amended witness: on the concrete trace where `A`'s peer dispatch
succeeds, an observation of `pm`'s artifact change separates the two
dispatches. -/
theorem c8_dependency_ordering_amended_witness :
    SchedEvent.observe exReqA.persona ∈ [SchedEvent.observe "pm"] :=
  (c8_dependency_ordering_amended "impl"
    { pending := [exReqA, exReqB], active := [] }
    { pending := [], active := ["docs"] }
    exReqA exReqB true [] [.observe "pm"] []
    (by decide) (by decide) (by decide)).1

/-- C9 (refuting the claim on the code): after one successful peer
dispatch the state `pending = [], active = [pm]` is reached; from it,
in an environment where the dispatched persona's response id and file
modification time never change, every further iteration of the
`while pending or active_personas` loop — even once the caller's finite
deadline has passed (`timedOut = true`) — returns the same state, and
the loop condition stays true: the deadline sweep of lines 379-382 drops
only *pending* requests, no timeout ever cancels the wait on
`active_personas`, so the loop never terminates. -/
theorem c9_active_wait_never_cancelled :
    runTrace "impl" { pending := [exReqA], active := [] }
        [.dispatch exReqA true] =
      some { pending := [], active := ["pm"] } ∧
    (∀ (timedOut : Bool) (peerOk : AgentRequest → Bool) (n : Nat),
      (loopBody "impl" (fun _ => false) timedOut peerOk)^[n]
          { pending := [], active := ["pm"] } =
        { pending := [], active := ["pm"] }) ∧
    loopContinues { pending := [], active := ["pm"] } = true := by
  refine ⟨by decide, ?_, rfl⟩
  intro timedOut peerOk n
  have hfix : loopBody "impl" (fun _ => false) timedOut peerOk
      { pending := [], active := ["pm"] } = { pending := [], active := ["pm"] } := by
    cases timedOut <;> rfl
  induction n with
  | zero => rfl
  | succ k ih =>
    rw [Function.iterate_succ_apply, hfix]
    exact ih

end CopilotMulti
